import Mathlib

/-!
# VibeCorp task-orchestration engine: a shallow embedding

This development embeds the task model, the per-agent decision cascade and the
side-effect tools of the VibeCorp simulation, and proves or refutes the
specification's claims about them.

Sources embedded here:
* `src/database/models.py` — the data model (`TaskStatus`, `Agent`,
  `Conversation`, `Message`).
* `src/agents/agent_manager.py` — `get_superior_for_agent`,
  `get_helper_for_task`, `should_report_task_completion`,
  `get_agent_todo_list`, `should_create_subtasks`,
  `generate_subtasks_for_task`, `should_complete_task`, `decide_next_action`.
* `src/company/tools.py` — `complete_task`, `update_task_status`,
  `manage_budget`, `write_tweet`.
* `src/agents/communication_tools.py` — `send_direct_message`.

Database sessions are modelled by explicit state passing; Python strings by
`String` with character-list operations; SQL `ORDER BY priority` by a stable
insertion sort.  Long literal message texts and generated file payloads are
represented by tagged constructors carrying the data the control flow
distinguishes them by; the control flow itself is embedded branch for branch.
-/

namespace VibeCorp

/-! ## String helpers

Python's `needle in hay`, `str.lower()`, `str.upper()`, slicing and
`str.replace(' ', '_')` on character lists. -/

/-- `isPrefixCharsB n h` is `true` when `n` is a prefix of `h`
(Python `str.startswith`, used for the SQL `LIKE 'x%'` pattern). -/
def isPrefixCharsB : List Char → List Char → Bool
  | [], _ => true
  | _ :: _, [] => false
  | a :: as, b :: bs => a == b && isPrefixCharsB as bs

/-- `containsSub needle hay` is Python's `needle in hay` on characters. -/
def containsSub (needle : List Char) : List Char → Bool
  | [] => needle.isEmpty
  | h :: t => isPrefixCharsB needle (h :: t) || containsSub needle t

/-- Python `needle in hay` for strings. -/
def strContains (hay needle : String) : Bool :=
  containsSub needle.toList hay.toList

/-- Python `str.lower()` (the identifiers involved are ASCII). -/
def lowerStr (s : String) : String :=
  String.mk (s.toList.map Char.toLower)

/-- Python `str.upper()`. -/
def upperStr (s : String) : String :=
  String.mk (s.toList.map Char.toUpper)

/-- Python `any(k in hay for k in kws)`. -/
def kwAny (hay : String) (kws : List String) : Bool :=
  kws.any (fun k => strContains hay k)

/-- Python `s[:n]` for strings. -/
def takeStr (s : String) (n : Nat) : String :=
  String.mk (s.toList.take n)

/-- Python `s.replace(' ', '_')`. -/
def replaceSpaces (s : String) : String :=
  String.mk (s.toList.map (fun c => if c = ' ' then '_' else c))

/-- Python `s.count(c)`. -/
def countChar (s : String) (c : Char) : Nat :=
  s.toList.count c

/-! ## Data model (`src/database/models.py`) -/

/-- `TaskStatus` from `src/database/models.py` (a `str` enum whose values are
the lowercase member names).

Modelled from the spec: the `AgentTask` model and the `BLOCKED` member of
`TaskStatus` are declared in a database module of this repository that is not
under `src/` — `src/database/models.py` declares only `PENDING`,
`IN_PROGRESS` and `COMPLETED`, yet `src/agents/agent_manager.py` and
`src/database/init_db.py` import `AgentTask` and use `TaskStatus.BLOCKED`.
Per the spec (§3), status ranges over PENDING, IN_PROGRESS, COMPLETED and
BLOCKED; `BLOCKED` follows the same lowercase-value convention as the three
members present in `src/database/models.py`. -/
inductive TaskStatus
  | pending
  | in_progress
  | completed
  | blocked
deriving DecidableEq, Repr

/-- The `.value` of each enum member, as in `src/database/models.py`
(lowercase member names). -/
def TaskStatus.value : TaskStatus → String
  | .pending => "pending"
  | .in_progress => "in_progress"
  | .completed => "completed"
  | .blocked => "blocked"

/-- Enum lookup by value, Python `TaskStatus(s)`: `some` when `s` is one of
the member values, otherwise a `ValueError` (here `none`). -/
def taskStatusOfValue (s : String) : Option TaskStatus :=
  if s = "pending" then some .pending
  else if s = "in_progress" then some .in_progress
  else if s = "completed" then some .completed
  else if s = "blocked" then some .blocked
  else none

/-- The `AgentTask` row.

Modelled from the spec: the class itself is declared outside `src/`;
its fields are those the spec's §3 Task entity lists and that every in-src
caller reads — `id`, `agent_id`, `title`, `description`, `status`,
`priority` (lower = more urgent) and the optional `parent_id`
(cf. the `TaskNode` serialization in `src/api/main.py`). -/
structure AgentTask where
  id : Nat
  agent_id : Nat
  title : String
  description : String
  status : TaskStatus
  priority : Int
  parent_id : Option Nat
deriving DecidableEq, Repr

/-- `Agent` row from `src/database/models.py` (persona/status fields are not
read by any embedded code path and are omitted). -/
structure Agent where
  id : Nat
  name : String
  role : String
deriving DecidableEq, Repr

/-- A task is "open" when it is PENDING or IN_PROGRESS — the recurring
`status.in_([TaskStatus.PENDING, TaskStatus.IN_PROGRESS])` filter. -/
def statusOpen (s : TaskStatus) : Bool :=
  s == .pending || s == .in_progress

/-! ## Task Store queries (`src/agents/agent_manager.py`) -/

/-- The priority order used by every `ORDER BY AgentTask.priority`. -/
def prioLE (a b : AgentTask) : Prop :=
  a.priority ≤ b.priority

instance : DecidableRel prioLE := fun a b => Int.decLe a.priority b.priority

instance : IsTotal AgentTask prioLE := ⟨fun a b => Int.le_total a.priority b.priority⟩

instance : IsTrans AgentTask prioLE := ⟨fun _ _ _ h h' => le_trans h h'⟩

/-- `ORDER BY AgentTask.priority` (ascending), as a stable sort. -/
def sortByPriority (l : List AgentTask) : List AgentTask :=
  List.insertionSort prioLE l

/-- The agent's PENDING/IN_PROGRESS tasks
(`get_agent_todo_list`, `src/agents/agent_manager.py:346-351`, before the
`ORDER BY`). -/
def openTasksOf (tasks : List AgentTask) (agentId : Nat) : List AgentTask :=
  tasks.filter (fun t => t.agent_id == agentId && statusOpen t.status)

/-- `any(child for child in all_tasks if child.parent_id == task.id and
child.status in [PENDING, IN_PROGRESS])`
(`src/agents/agent_manager.py:362-365`): the scan for open children runs over
the same open-task query result, not over all children. -/
def hasOpenChild (all_tasks : List AgentTask) (t : AgentTask) : Bool :=
  all_tasks.any (fun c => c.parent_id == some t.id && statusOpen c.status)

/-- `get_agent_todo_list` (`src/agents/agent_manager.py:342-373`): the open
tasks ordered by priority, stably partitioned into tasks without open
children (first) and tasks with open children (last). -/
def get_agent_todo_list (tasks : List AgentTask) (agentId : Nat) : List AgentTask :=
  let all_tasks := sortByPriority (openTasksOf tasks agentId)
  all_tasks.filter (fun t => !(hasOpenChild all_tasks t))
    ++ all_tasks.filter (fun t => hasOpenChild all_tasks t)

/-- `AgentTask.parent_id == current_task.id` child query
(`src/agents/agent_manager.py:684-686, 707-709`). -/
def childrenOf (tasks : List AgentTask) (task_id : Nat) : List AgentTask :=
  tasks.filter (fun c => c.parent_id == some task_id)

/-! ## Role heuristics (`src/agents/agent_manager.py:15-76`) -/

/-- `get_superior_for_agent` (`src/agents/agent_manager.py:15-23`): the
`hierarchy.get(role)` lookup; the CEO and unknown roles map to `None`. -/
def get_superior_for_agent (role : String) : Option String :=
  if role = "Programmer" then some "CeeCee_The_CEO"
  else if role = "Marketer" then some "CeeCee_The_CEO"
  else if role = "HR" then some "CeeCee_The_CEO"
  else none

/-- `get_helper_for_task` (`src/agents/agent_manager.py:25-54`). -/
def get_helper_for_task (role : String) (task_title : String) : String :=
  let task_lower := lowerStr task_title
  if kwAny task_lower ["code", "technical", "architecture", "security",
      "implementation", "create", "build", "develop", "system",
      "authentication", "database", "api", "frontend", "backend"] then
    if role ≠ "Programmer" then
      if kwAny task_lower ["security", "test", "review", "quality"] then
        "Paige_The_Programmer"
      else
        "Penny_The_Programmer"
    else
      "CeeCee_The_CEO"
  else if kwAny task_lower ["marketing", "social", "campaign", "brand", "content"] then
    if role ≠ "Marketer" then "Marty_The_Marketer" else "CeeCee_The_CEO"
  else if kwAny task_lower ["team", "hr", "employee", "satisfaction", "hiring"] then
    if role ≠ "HR" then "Herb_From_HR" else "CeeCee_The_CEO"
  else if kwAny task_lower ["strategy", "business", "market", "budget", "financial"] then
    if role ≠ "CEO" then "CeeCee_The_CEO" else "general"
  else
    "general"

/-- `should_report_task_completion` (`src/agents/agent_manager.py:57-76`). -/
def should_report_task_completion (task : AgentTask) (_agent_role : String) : Bool :=
  if task.priority ≤ 3 then true
  else if task.parent_id = none then true
  else
    kwAny (lowerStr task.title) ["create", "build", "implement", "develop",
      "design", "complete", "finish", "deploy", "launch", "release"]

/-- `should_create_subtasks` (`src/agents/agent_manager.py:376-398`). -/
def should_create_subtasks (task : AgentTask) (_agent_role : String) : Bool :=
  let task_title := lowerStr task.title
  let task_description := lowerStr task.description
  let complex_keywords := ["build", "create", "implement", "develop", "design",
    "system", "feature", "application", "platform", "website", "dashboard",
    "authentication", "database", "api", "integration", "architecture"]
  let specific_keywords := ["write code", "fix bug", "test", "review",
    "document", "research", "meeting", "call", "email", "message", "tweet", "post"]
  (complex_keywords.any fun k => strContains task_title k || strContains task_description k)
    && !(specific_keywords.any fun k => strContains task_title k || strContains task_description k)

/-- The sub-task list produced by `generate_subtasks_for_task`
(`src/agents/agent_manager.py:401-467`); the five/four hard-coded
title–description pairs of each branch are abbreviated to a tag (no claim
inspects their text), keyed by the branch that produced them.  Every branch,
including the default, returns a non-empty list in the source. -/
inductive SubtaskSet
  | progAuth
  | progDashboard
  | progSystem
  | marketerCampaign
  | marketerLanding
  | hrTeam
  | genericFour (title : String)
deriving DecidableEq, Repr

/-- `generate_subtasks_for_task` (`src/agents/agent_manager.py:401-467`). -/
def generate_subtasks_for_task (task : AgentTask) (agent_role : String) : SubtaskSet :=
  let task_title := lowerStr task.title
  if agent_role = "Programmer" then
    if strContains task_title "authentication" || strContains task_title "auth" then
      .progAuth
    else if strContains task_title "dashboard" || strContains task_title "interface" then
      .progDashboard
    else if kwAny task_title ["build", "create", "implement"]
        && kwAny task_title ["system", "feature", "application"] then
      .progSystem
    else
      .genericFour task.title
  else if agent_role = "Marketer" then
    if strContains task_title "campaign" || strContains task_title "marketing" then
      .marketerCampaign
    else if strContains task_title "landing page" || strContains task_title "website" then
      .marketerLanding
    else
      .genericFour task.title
  else if agent_role = "HR" then
    if strContains task_title "team" || strContains task_title "hiring" then
      .hrTeam
    else
      .genericFour task.title
  else
    .genericFour task.title

/-- `should_complete_task` (`src/agents/agent_manager.py:470-500`). -/
def should_complete_task (task : AgentTask) (agent_role : String) : Bool :=
  let task_title := lowerStr task.title
  if agent_role = "CEO"
      && (strContains task_title "brainstorm" || strContains task_title "initiate") then
    false
  else if kwAny task_title ["design", "create", "write", "implement", "build",
      "set up", "configure", "research", "plan", "define", "document", "test"] then
    true
  else if kwAny task_title ["message", "email", "call", "meeting", "discuss"] then
    true
  else
    false

/-! ## Messages and actions -/

/-- One entry of the `messages` list handed to `decide_next_action` — the
dict built by `check_for_messages` (`src/agents/agent_manager.py:327-334`);
its `type` is always `"chat_message"`. -/
structure ChatMessage where
  sender : String
  content : String
  channel : String
  timestamp : String
deriving DecidableEq, Repr

/-- `message_id = f"{sender}:{timestamp}:{content[:30]}"`
(`src/agents/agent_manager.py:514-519`): the content is lowercased first
(line 514) and truncated to 30 characters. -/
def message_id (m : ChatMessage) : String :=
  m.sender ++ ":" ++ m.timestamp ++ ":" ++ takeStr (lowerStr m.content) 30

/-- The hard-coded message texts of `decide_next_action`, keyed by the branch
that produces them together with the data interpolated into the f-string (no
claim inspects the surrounding prose). -/
inductive MsgTag
  | brainstormReplyProgrammer
  | brainstormReplyMarketer
  | brainstormReplyHR
  | taskReport (task_id : Nat)
  | helpRequest (title : String)
  | ceoNudgeBrainstorm
  | participateBrainstorm (role : String)
  | ceoNudgeReview (brainstormCount : Nat)
  | workingOn (title : String)
  | completionUpdate (title : String)
deriving DecidableEq, Repr

/-- The generated code-file payloads
(`src/agents/agent_manager.py:810, 822, 835, 850`), keyed by branch. -/
inductive CodeTag
  | authSystem
  | dashboardHtml
  | genericPy (title : String)
  | landingHtml
deriving DecidableEq, Repr

/-- The `write_to_file` payloads (`src/agents/agent_manager.py:864, 877`),
keyed by branch. -/
inductive FileTag
  | processDoc
  | basicDoc
deriving DecidableEq, Repr

/-- The action dict returned by `decide_next_action`: the tool name and the
arguments the control flow distinguishes. -/
inductive AgentAction
  | send_message_to_channel (channel : String) (tag : MsgTag)
  | send_direct_message (recipient : String) (tag : MsgTag)
  | ask_for_help (topic : String) (tag : MsgTag)
  | assign_task_to_agent (assignee title : String) (priority : Int)
  | create_sub_tasks (parent_task_id : Nat) (subs : SubtaskSet)
  | complete_task (task_id : Nat)
  | make_business_decision (task_id : Nat)
  | web_search (query : String)
  | create_code_file (filename language : String) (content : CodeTag)
  | write_to_file (path : String) (content : FileTag)
  | add_task (title : String) (priority : Int)
  | get_my_todo_list
  | share_update (tag : MsgTag)
deriving DecidableEq, Repr

/-! ## The decision cascade (`decide_next_action`,
`src/agents/agent_manager.py:503-1004`)

The cascade is embedded rule by rule, in source order; `decide_next_action`
below strings the rules together exactly as the Python function's early
returns do.  Database reads become explicit inputs: `tasks` is the
`AgentTask` table, `brainstormCount` the number of messages found by
`check_brainstorming_progress`, and `coin` the value of
`random.random() < 0.7` at line 956. -/

/-- The sender/keyword trigger of the respond rule
(`src/agents/agent_manager.py:526`); `content` is the lowercased message
content of line 514. -/
def brainstormTrigger (m : ChatMessage) : Bool :=
  let content := lowerStr m.content
  m.sender == "CeeCee_The_CEO"
    && (strContains content "brainstorm" || strContains content "business idea"
        || strContains content "thoughts")

/-- The role dispatch inside the respond rule
(`src/agents/agent_manager.py:530-559`): only the three listed roles answer
a brainstorming request; any other role falls through to the next message. -/
def roleReply (role : String) : Option MsgTag :=
  if role = "Programmer" then some .brainstormReplyProgrammer
  else if role = "Marketer" then some .brainstormReplyMarketer
  else if role = "HR" then some .brainstormReplyHR
  else none

/-- Rule 0, the message-respond loop (`src/agents/agent_manager.py:509-559`):
skip already-answered messages, mark a triggering message as answered, and
reply according to role.  Returns the produced action (if any) together with
the updated `responded_messages` seen-set. -/
def respondRule (role : String) :
    List ChatMessage → List String → Option AgentAction × List String
  | [], responded => (none, responded)
  | m :: rest, responded =>
    if responded.contains (message_id m) then
      respondRule role rest responded
    else if brainstormTrigger m then
      let responded' := message_id m :: responded
      match roleReply role with
      | some tag => (some (.send_message_to_channel "#general" tag), responded')
      | none => respondRule role rest responded'
    else
      respondRule role rest responded

/-- Rule 1, report a completed task to the superior
(`src/agents/agent_manager.py:561-612`): all of the agent's COMPLETED tasks,
ordered by priority, filtered by `should_report_task_completion`; the first
survivor is reported to the superior if the role has one.  No record of sent
reports is kept. -/
def reportRule (role : String) (agentId : Nat) (tasks : List AgentTask) :
    Option AgentAction :=
  let recently_completed :=
    sortByPriority (tasks.filter fun t => t.agent_id == agentId && t.status == .completed)
  match recently_completed.filter (fun t => should_report_task_completion t role) with
  | [] => none
  | completed_task :: _ =>
    match get_superior_for_agent role with
    | some superior => some (.send_direct_message superior (.taskReport completed_task.id))
    | none => none

/-- Rule 2, ask for help on a BLOCKED task
(`src/agents/agent_manager.py:614-648`): the highest-priority BLOCKED task of
the todo list, routed to `get_helper_for_task` as a direct message, or to the
general channel via `ask_for_help` when the helper is `"general"`. -/
def blockedRule (role : String) (todo_list : List AgentTask) : Option AgentAction :=
  if todo_list.isEmpty then none
  else
    match sortByPriority (todo_list.filter fun t => t.status == .blocked) with
    | [] => none
    | blocked_task :: _ =>
      let helper := get_helper_for_task role blocked_task.title
      if helper = "general" then
        some (.ask_for_help ("BLOCKED: " ++ blocked_task.title) (.helpRequest blocked_task.title))
      else
        some (.send_direct_message helper (.helpRequest blocked_task.title))

/-- Rule 3, CEO delegation (`src/agents/agent_manager.py:650-663`): fires when
the CEO's todo list is non-empty but contains nothing PENDING/IN_PROGRESS. -/
def ceoDelegateRule (role : String) (todo_list : List AgentTask) : Option AgentAction :=
  if role = "CEO" && !todo_list.isEmpty
      && !(todo_list.any fun t => statusOpen t.status) then
    some (.assign_task_to_agent "Penny_The_Programmer"
      "Implement priority feature from market research" 1)
  else none

/-- The keyword dispatch for an IN_PROGRESS head task that passed the
completion check (`src/agents/agent_manager.py:746-881`).  `none` means the
Python code falls through to the bottom of the function (no branch returned:
the title matches none of the keyword groups, or the create/write group
matched but the role-specific sub-branch did not return). -/
def workKeywordBranch (role : String) (current_task : AgentTask)
    (brainstormCount : Nat) : Option AgentAction :=
  let title := lowerStr current_task.title
  if kwAny title ["brainstorm", "discussion", "initiate"] then
    if role = "CEO" then
      if brainstormCount ≥ 2 then
        some (.make_business_decision current_task.id)
      else
        some (.send_message_to_channel "#general" .ceoNudgeBrainstorm)
    else
      some (.send_message_to_channel "#general" (.participateBrainstorm role))
  else if strContains title "research" then
    some (.web_search (takeStr current_task.title 50))
  else if kwAny title ["create", "write", "document", "file"] then
    if strContains title "code" || strContains title "system" then
      if role = "Programmer" then
        if strContains title "authentication" || strContains title "auth" then
          some (.create_code_file "auth_system.py" "python" .authSystem)
        else if strContains title "dashboard" || strContains title "interface" then
          some (.create_code_file "dashboard.html" "html" .dashboardHtml)
        else
          some (.create_code_file (replaceSpaces (lowerStr current_task.title) ++ ".py")
            "python" (.genericPy current_task.title))
      else
        none
    else if strContains title "landing page" || strContains title "marketing" then
      if role = "Marketer" then
        some (.create_code_file "landing_page.html" "html" .landingHtml)
      else
        none
    else if strContains title "process" || strContains title "document" then
      some (.write_to_file (replaceSpaces (lowerStr current_task.title) ++ ".md") .processDoc)
    else
      some (.write_to_file (replaceSpaces (lowerStr current_task.title) ++ ".md") .basicDoc)
  else
    none

/-- The `else` arm for a head task that is neither PENDING nor IN_PROGRESS
(`src/agents/agent_manager.py:883-951`). -/
def defaultHeadAction (role : String) (current_task : AgentTask)
    (brainstormCount : Nat) : AgentAction :=
  if role = "CEO" && strContains (lowerStr current_task.title) "review team progress" then
    if brainstormCount ≥ 2 then
      .make_business_decision current_task.id
    else
      .send_message_to_channel "#general" (.ceoNudgeReview brainstormCount)
  else if role = "CEO" then
    if brainstormCount ≥ 1 then
      .make_business_decision current_task.id
    else
      .send_message_to_channel "#general" (.workingOn current_task.title)
  else
    .send_message_to_channel "#general" (.workingOn current_task.title)

/-- The work branch (`src/agents/agent_manager.py:666-951`), entered when the
todo list has a PENDING/IN_PROGRESS task; `current_task` is the head of the
todo list (`current_task = todo_list[0]`, line 668).  `none` means the
Python code falls through to the idle region at line 953. -/
def workRule (role : String) (tasks : List AgentTask) (current_task : AgentTask)
    (brainstormCount : Nat) : Option AgentAction :=
  if current_task.status == .pending then
    let existing_children := childrenOf tasks current_task.id
    if existing_children.isEmpty && should_create_subtasks current_task role then
      some (.create_sub_tasks current_task.id (generate_subtasks_for_task current_task role))
    else
      none
  else if current_task.status == .in_progress then
    let children := childrenOf tasks current_task.id
    if !children.isEmpty then
      if children.all (fun c => c.status == .completed) then
        some (.complete_task current_task.id)
      else
        workKeywordBranch role current_task brainstormCount
    else
      if should_complete_task current_task role then
        some (.complete_task current_task.id)
      else
        workKeywordBranch role current_task brainstormCount
  else
    some (defaultHeadAction role current_task brainstormCount)

/-- The `AgentTask.title.like("Review team progress%")` duplicate check of
the CEO idle branch (`src/agents/agent_manager.py:971-977`). -/
def hasOpenReviewTask (tasks : List AgentTask) (agentId : Nat) : Bool :=
  tasks.any fun t =>
    t.agent_id == agentId
      && isPrefixCharsB "Review team progress".toList t.title.toList
      && statusOpen t.status

/-- The idle region (`src/agents/agent_manager.py:953-1004`): probabilistic
completion update, CEO follow-up task creation guarded by the duplicate
check, and the final `get_my_todo_list` poll.  `coin` is
`random.random() < 0.7`. -/
def idleFallback (role : String) (agentId : Nat) (tasks : List AgentTask)
    (todo_list : List AgentTask) (coin : Bool) : AgentAction :=
  if !todo_list.isEmpty && (todo_list.any fun t => t.status == .completed) && coin then
    match todo_list.filter (fun t => t.status == .completed) with
    | completed_task :: _ => .share_update (.completionUpdate completed_task.title)
    | [] => .get_my_todo_list
  else if todo_list.isEmpty || !(todo_list.any fun t => statusOpen t.status) then
    if role = "CEO" then
      if !hasOpenReviewTask tasks agentId then
        .add_task "Review team progress and assign next tasks" 1
      else
        .get_my_todo_list
    else
      .get_my_todo_list
  else
    .get_my_todo_list

/-- The outcome of one `decide_next_action` call: the chosen action, the
updated `responded_messages` seen-set, and the id of the head task marked
IN_PROGRESS as a side effect of entering the work branch with a PENDING head
(`src/agents/agent_manager.py:672-679`). -/
structure DecideResult where
  action : AgentAction
  responded : List String
  started : Option Nat
deriving DecidableEq, Repr

/-- `decide_next_action` (`src/agents/agent_manager.py:503-1004`): the rules
above, first match wins, in source order. -/
def decide_next_action (role : String) (agentId : Nat) (messages : List ChatMessage)
    (tasks : List AgentTask) (todo_list : List AgentTask) (responded : List String)
    (brainstormCount : Nat) (coin : Bool) : DecideResult :=
  match respondRule role messages responded with
  | (some a, responded') => ⟨a, responded', none⟩
  | (none, responded') =>
    match reportRule role agentId tasks with
    | some a => ⟨a, responded', none⟩
    | none =>
      match blockedRule role todo_list with
      | some a => ⟨a, responded', none⟩
      | none =>
        match ceoDelegateRule role todo_list with
        | some a => ⟨a, responded', none⟩
        | none =>
          match todo_list with
          | current_task :: _ =>
            if todo_list.any (fun t => statusOpen t.status) then
              let started :=
                if current_task.status == .pending then some current_task.id else none
              match workRule role tasks current_task brainstormCount with
              | some a => ⟨a, responded', started⟩
              | none => ⟨idleFallback role agentId tasks todo_list coin, responded', started⟩
            else
              ⟨idleFallback role agentId tasks todo_list coin, responded', none⟩
          | [] => ⟨idleFallback role agentId tasks todo_list coin, responded', none⟩

/-- `n` consecutive cycles of one runtime's decision engine against a fixed
environment, threading the per-runtime `responded_messages` seen-set
(`run_agent_loop`, `src/agents/agent_manager.py:157-190`), collecting the
produced actions. -/
def runCycles : Nat → String → Nat → List ChatMessage → List AgentTask →
    List AgentTask → List String → Nat → Bool → List AgentAction
  | 0, _, _, _, _, _, _, _, _ => []
  | n + 1, role, agentId, messages, tasks, todo_list, responded, brainstormCount, coin =>
    let r := decide_next_action role agentId messages tasks todo_list responded
      brainstormCount coin
    r.action :: runCycles n role agentId messages tasks todo_list r.responded
      brainstormCount coin

/-! ## Task tools (`src/company/tools.py`) -/

/-- The agent and task tables a task tool operates on. -/
structure TaskDB where
  agents : List Agent
  tasks : List AgentTask
deriving DecidableEq, Repr

/-- The outcome classes of a task tool's returned string: `ok` for the
confirmation message, the rest for the distinct error messages. -/
inductive ToolResult
  | ok
  | agentNotFound
  | taskNotFound
  | invalidStatus
  | enumValueFailed
deriving DecidableEq, Repr

/-- `select(Agent).where(Agent.name == agent_name)).first()`. -/
def findAgent (db : TaskDB) (agent_name : String) : Option Agent :=
  db.agents.find? (fun a => a.name == agent_name)

/-- `select(AgentTask).where(AgentTask.id == task_id)
.where(AgentTask.agent_id == agent.id)).first()`. -/
def findTask (db : TaskDB) (task_id : Nat) (agent_id : Nat) : Option AgentTask :=
  db.tasks.find? (fun t => t.id == task_id && t.agent_id == agent_id)

/-- The ORM update `task.status = s; session.commit()`: rewrite the row with
the given id. -/
def setTaskStatus (tasks : List AgentTask) (task_id : Nat) (s : TaskStatus) :
    List AgentTask :=
  tasks.map (fun t => if t.id == task_id then { t with status := s } else t)

/-- `complete_task` (`src/company/tools.py:55-91`): find the agent, find the
task, and unconditionally set its status to COMPLETED — there is no check of
the previous status and no check of the task's children. -/
def complete_task (agent_name : String) (task_id : Nat) (db : TaskDB) :
    ToolResult × TaskDB :=
  match findAgent db agent_name with
  | none => (.agentNotFound, db)
  | some agent =>
    match findTask db task_id agent.id with
    | none => (.taskNotFound, db)
    | some _ => (.ok, { db with tasks := setTaskStatus db.tasks task_id .completed })

/-- `update_task_status` (`src/company/tools.py:134-176`): the requested
status name is validated case-insensitively against the four lowercase
names, but the enum conversion is `TaskStatus(status.upper())` — looked up
against the lowercase member *values*, so it raises `ValueError`, the broad
`except` catches it, and the session is discarded without a commit. -/
def update_task_status (agent_name : String) (task_id : Nat) (status : String)
    (db : TaskDB) : ToolResult × TaskDB :=
  if !(["pending", "in_progress", "completed", "blocked"].contains (lowerStr status)) then
    (.invalidStatus, db)
  else
    match findAgent db agent_name with
    | none => (.agentNotFound, db)
    | some agent =>
      match findTask db task_id agent.id with
      | none => (.taskNotFound, db)
      | some _ =>
        match taskStatusOfValue (upperStr status) with
        | none => (.enumValueFailed, db)
        | some s => (.ok, { db with tasks := setTaskStatus db.tasks task_id s })

/-! ## Budget tool (`manage_budget`, `src/company/tools.py:710-786`) -/

/-- A ledger entry (`src/company/tools.py:744-750, 764-770`); the wall-clock
timestamp is omitted. -/
inductive TransactionKind
  | expense
  | revenue
deriving DecidableEq, Repr

/-- One entry of `budget_data["transactions"]`. -/
structure Transaction where
  kind : TransactionKind
  amount : ℚ
  description : String
  balance_after : ℚ
deriving DecidableEq, Repr

/-- `budget_data` (`src/company/tools.py:730-734`). -/
structure BudgetData where
  current_balance : ℚ
  transactions : List Transaction
  monthly_burn_rate : ℚ
deriving DecidableEq, Repr

/-- The default budget created when `workspace/company_budget.json` does not
exist (`src/company/tools.py:730-734`). -/
def defaultBudget : BudgetData :=
  { current_balance := 100000, transactions := [], monthly_burn_rate := 15000 }

/-- The outcome classes of `manage_budget`'s returned string, carrying the
figures interpolated into it. -/
inductive BudgetResult
  | view (balance burn : ℚ) (txCount : Nat)
  | insufficientFunds (available requested : ℚ)
  | expenseRecorded (amount newBalance : ℚ)
  | revenueAdded (amount newBalance : ℚ)
  | invalidAction
deriving DecidableEq, Repr

/-- Python `description or "default"`: `None` and the empty string both fall
back to the default. -/
def orDefault (d : Option String) (dflt : String) : String :=
  match d with
  | some s => if s = "" then dflt else s
  | none => dflt

/-- `manage_budget` (`src/company/tools.py:710-786`).  The budget file is the
`Option BudgetData` store: `none` when the file does not exist.  `view` and
the error paths return before any write, so they leave the store as it was
(in particular, `view` does not persist the default); the two mutating paths
save the updated budget. -/
def manage_budget (action : String) (amount : Option ℚ) (description : Option String)
    (store : Option BudgetData) : BudgetResult × Option BudgetData :=
  let budget_data := store.getD defaultBudget
  if action = "view" then
    (.view budget_data.current_balance budget_data.monthly_burn_rate
      budget_data.transactions.length, store)
  else if action = "spend" then
    match amount with
    | some amt =>
      if amt > budget_data.current_balance then
        (.insufficientFunds budget_data.current_balance amt, store)
      else
        let transaction : Transaction :=
          { kind := .expense, amount := -amt,
            description := orDefault description "Unspecified expense",
            balance_after := budget_data.current_balance - amt }
        let budget' :=
          { budget_data with
            current_balance := budget_data.current_balance - amt,
            transactions := budget_data.transactions ++ [transaction] }
        (.expenseRecorded amt budget'.current_balance, some budget')
    | none => (.invalidAction, store)
  else if action = "add_revenue" then
    match amount with
    | some amt =>
      let transaction : Transaction :=
        { kind := .revenue, amount := amt,
          description := orDefault description "Unspecified revenue",
          balance_after := budget_data.current_balance + amt }
      let budget' :=
        { budget_data with
          current_balance := budget_data.current_balance + amt,
          transactions := budget_data.transactions ++ [transaction] }
      (.revenueAdded amt budget'.current_balance, some budget')
    | none => (.invalidAction, store)
  else
    (.invalidAction, store)

/-! ## Tweet tool (`write_tweet`, `src/company/tools.py:408-457`) -/

/-- One entry of the agent's `tweets.json` (`src/company/tools.py:429-437`);
the wall-clock timestamp is omitted. -/
structure TweetData where
  author : String
  message : String
  character_count : Nat
  hashtags : Nat
  mentions : Nat
  status : String
deriving DecidableEq, Repr

/-- The outcome classes of `write_tweet`'s returned string. -/
inductive TweetResult
  | tooLong (length : Nat)
  | saved (length : Nat)
deriving DecidableEq, Repr

/-- `write_tweet` (`src/company/tools.py:408-457`): reject messages longer
than 280 characters before touching the file; otherwise load the existing
tweet list (or start a new one), insert the new draft at position 0 and save.
The store is `none` while `tweets.json` does not exist. -/
def write_tweet (agent_name : String) (message : String)
    (store : Option (List TweetData)) : TweetResult × Option (List TweetData) :=
  if message.length > 280 then
    (.tooLong message.length, store)
  else
    let tweets := store.getD []
    let tweet_data : TweetData :=
      { author := agent_name, message := message,
        character_count := message.length,
        hashtags := countChar message '#', mentions := countChar message '@',
        status := "draft" }
    (.saved message.length, some (tweet_data :: tweets))

/-! ## Direct messages (`send_direct_message`,
`src/agents/communication_tools.py:63-126`) -/

/-- A `Conversation` row, keyed by its name as `send_direct_message` queries
it. -/
structure Conversation where
  name : String
deriving DecidableEq, Repr

/-- A persisted `Message` row (content and wall-clock timestamp do not affect
the claims about channel creation; the conversation is recorded by name). -/
structure ChannelMessage where
  conversation_name : String
  sender : String
  content : String
deriving DecidableEq, Repr

/-- The chat side of the store. -/
structure ChatDB where
  agents : List Agent
  conversations : List Conversation
  messages : List ChannelMessage
deriving DecidableEq, Repr

/-- The outcome classes of `send_direct_message`'s returned string. -/
inductive DMResult
  | ok (recipient : String)
  | senderNotFound
  | recipientNotFound
deriving DecidableEq, Repr

/-- `dm_name = f"DM: {agent_name} ↔ {recipient_agent}"`
(`src/agents/communication_tools.py:88`): the key uses sender and recipient
in argument order — it is not sorted. -/
def dm_name (agent_name recipient_agent : String) : String :=
  "DM: " ++ agent_name ++ " ↔ " ++ recipient_agent

/-- `send_direct_message` (`src/agents/communication_tools.py:63-126`): look
up both agents, get-or-create the conversation named
`dm_name agent_name recipient_agent`, and append the message to it. -/
def send_direct_message (agent_name recipient_agent : String) (message : String)
    (db : ChatDB) : DMResult × ChatDB :=
  match db.agents.find? (fun a => a.name == agent_name) with
  | none => (.senderNotFound, db)
  | some _ =>
    match db.agents.find? (fun a => a.name == recipient_agent) with
    | none => (.recipientNotFound, db)
    | some _ =>
      let name := dm_name agent_name recipient_agent
      let db' :=
        if db.conversations.any (fun c => c.name == name) then db
        else { db with conversations := db.conversations ++ [⟨name⟩] }
      (.ok recipient_agent,
        { db' with messages := db'.messages ++ [⟨name, agent_name, message⟩] })

/-! ## Observation predicates and concrete instances used by the theorems -/

/-- Classifies the reply actions of the respond rule: the three hard-coded
brainstorming answers of `src/agents/agent_manager.py:530-559`.  No other
branch of `decide_next_action` builds these payloads. -/
def isBrainstormReply : AgentAction → Bool
  | .send_message_to_channel _ .brainstormReplyProgrammer => true
  | .send_message_to_channel _ .brainstormReplyMarketer => true
  | .send_message_to_channel _ .brainstormReplyHR => true
  | _ => false

/-- A three-task chain: root `chainA`, its child `chainB`, and grandchild
`chainC`, all PENDING and owned by agent 7. -/
def chainA : AgentTask := ⟨1, 7, "A", "", .pending, 1, none⟩

/-- Child of `chainA`. -/
def chainB : AgentTask := ⟨2, 7, "B", "", .pending, 2, some 1⟩

/-- Child of `chainB`. -/
def chainC : AgentTask := ⟨3, 7, "C", "", .pending, 3, some 2⟩

/-- A programmer agent row. -/
def c2Agent : Agent := ⟨1, "Penny_The_Programmer", "Programmer"⟩

/-- An IN_PROGRESS parent task. -/
def c2Parent : AgentTask := ⟨1, 1, "Build auth", "", .in_progress, 1, none⟩

/-- A still-PENDING child of `c2Parent`. -/
def c2Child : AgentTask := ⟨2, 1, "auth step", "", .pending, 2, some 1⟩

/-- The store holding `c2Parent` and its open child. -/
def c2DB : TaskDB := ⟨[c2Agent], [c2Parent, c2Child]⟩

/-- A PENDING task with no children. -/
def c3Task : AgentTask := ⟨1, 1, "misc step", "", .pending, 5, some 9⟩

/-- The store holding only `c3Task`. -/
def c3DB : TaskDB := ⟨[c2Agent], [c3Task]⟩

/-- A COMPLETED reportable root task (priority 1 ≤ 3) owned by agent 1. -/
def c5Task : AgentTask := ⟨1, 1, "Launch campaign", "", .completed, 1, none⟩

/-- A BLOCKED task titled "Implement login API" owned by agent 1. -/
def c6Blocked : AgentTask := ⟨1, 1, "Implement login API", "login endpoint", .blocked, 1, none⟩

/-- A COMPLETED task that passes no clause of the reportable filter:
priority 10, a parent link, and no deliverable keyword in the title. -/
def c8Task : AgentTask := ⟨1, 1, "tidy desk", "", .completed, 10, some 99⟩

/-- Two agents for the direct-message scenario. -/
def dmDB0 : ChatDB := ⟨[⟨1, "Alice", "HR"⟩, ⟨2, "Bob", "HR"⟩], [], []⟩

/-- The store after Alice messages Bob. -/
def dmDB1 : ChatDB := (send_direct_message "Alice" "Bob" "hi" dmDB0).2

/-- The store after Bob then replies to Alice. -/
def dmDB2 : ChatDB := (send_direct_message "Bob" "Alice" "hello" dmDB1).2

/-- A message from the CEO whose lowercased content contains "brainstorm". -/
def brainstormMsg : ChatMessage :=
  ⟨"CeeCee_The_CEO", "Time to brainstorm our business idea!", "#general", "2024-01-01T10:00:00"⟩

/-! # Theorems -/

/-- C9: a `manage_budget('spend', amount)` with `amount` strictly above the
balance returns the insufficient-funds error and leaves the stored balance
and transaction list unchanged; an affordable spend decreases the balance by
exactly `amount` and appends exactly one expense transaction; and a `view`
leaves the store unchanged, so repeated views return the same balance. -/
theorem C9_manage_budget_contract (store : Option BudgetData) (amt : ℚ)
    (desc : Option String) :
    (amt > (store.getD defaultBudget).current_balance →
      manage_budget "spend" (some amt) desc store =
        (.insufficientFunds (store.getD defaultBudget).current_balance amt, store))
    ∧ (amt ≤ (store.getD defaultBudget).current_balance →
        ∃ b', manage_budget "spend" (some amt) desc store =
            (.expenseRecorded amt b'.current_balance, some b')
          ∧ b'.current_balance = (store.getD defaultBudget).current_balance - amt
          ∧ b'.transactions =
              (store.getD defaultBudget).transactions ++
                [⟨.expense, -amt, orDefault desc "Unspecified expense",
                  (store.getD defaultBudget).current_balance - amt⟩])
    ∧ (manage_budget "view" none none store).2 = store
    ∧ (manage_budget "view" none none ((manage_budget "view" none none store).2)).1
        = (manage_budget "view" none none store).1 := by
  refine ⟨fun h => ?_, fun h => ?_, ?_, ?_⟩
  · unfold manage_budget
    rw [if_neg (by decide), if_pos rfl]
    dsimp only
    rw [if_pos h]
  · unfold manage_budget
    rw [if_neg (by decide), if_pos rfl]
    dsimp only
    rw [if_neg (not_lt.mpr h)]
    exact ⟨{ current_balance := (store.getD defaultBudget).current_balance - amt,
             transactions := (store.getD defaultBudget).transactions ++
               [⟨.expense, -amt, orDefault desc "Unspecified expense",
                 (store.getD defaultBudget).current_balance - amt⟩],
             monthly_burn_rate := (store.getD defaultBudget).monthly_burn_rate },
           rfl, rfl, rfl⟩
  · unfold manage_budget
    rw [if_pos rfl]
  · rfl

/-- C9 witness: both spend branches of the contract at concrete inputs
(an unaffordable 200000 against the fresh 100000 budget, then an affordable
500). -/
theorem C9_manage_budget_contract_witness :
    manage_budget "spend" (some 200000) none none =
      (.insufficientFunds (100000 : ℚ) 200000, none)
    ∧ ∃ b', manage_budget "spend" (some 500) (some "ads") none =
          (.expenseRecorded 500 b'.current_balance, some b')
        ∧ b'.current_balance = (100000 : ℚ) - 500
        ∧ b'.transactions = [] ++ [⟨.expense, -500, orDefault (some "ads") "Unspecified expense",
            (100000 : ℚ) - 500⟩] :=
  ⟨(C9_manage_budget_contract none 200000 none).1 (by norm_num [defaultBudget]),
   (C9_manage_budget_contract none 500 (some "ads")).2.1 (by norm_num [defaultBudget])⟩

/-- C10: `write_tweet` rejects a message longer than 280 characters and
records nothing; for a message of at most 280 characters it prepends exactly
one draft tweet carrying the message's character count, leaving the
previously saved tweets intact. -/
theorem C10_write_tweet_contract (agent message : String)
    (store : Option (List TweetData)) :
    (message.length > 280 →
      write_tweet agent message store = (.tooLong message.length, store))
    ∧ (message.length ≤ 280 →
        write_tweet agent message store =
          (.saved message.length,
            some ({ author := agent, message := message,
                    character_count := message.length,
                    hashtags := countChar message '#',
                    mentions := countChar message '@',
                    status := "draft" } :: store.getD []))) := by
  constructor
  · intro h
    unfold write_tweet
    rw [if_pos h]
  · intro h
    unfold write_tweet
    rw [if_neg (not_lt.mpr h)]

set_option maxRecDepth 4096 in
/-- C10 witness: a 281-character message is rejected with the store intact,
and an 11-character message is prepended as one draft with the right count. -/
theorem C10_write_tweet_contract_witness :
    write_tweet "Marty_The_Marketer" (String.mk (List.replicate 281 'a')) none =
      (.tooLong (String.mk (List.replicate 281 'a')).length, none)
    ∧ write_tweet "Marty_The_Marketer" "hello #x @y" (some []) =
        (.saved ("hello #x @y").length,
          some [{ author := "Marty_The_Marketer", message := "hello #x @y",
                  character_count := ("hello #x @y").length,
                  hashtags := countChar "hello #x @y" '#',
                  mentions := countChar "hello #x @y" '@',
                  status := "draft" }]) :=
  ⟨(C10_write_tweet_contract "Marty_The_Marketer" (String.mk (List.replicate 281 'a')) none).1
      (by decide),
   (C10_write_tweet_contract "Marty_The_Marketer" "hello #x @y" (some [])).2 (by decide)⟩

/-- `send_direct_message` never changes the agent table. -/
theorem sdm_agents_eq (a b m : String) (db : ChatDB) :
    ((send_direct_message a b m db).2).agents = db.agents := by
  unfold send_direct_message
  cases h1 : db.agents.find? (fun t => t.name == a) with
  | none => rfl
  | some x =>
    cases h2 : db.agents.find? (fun t => t.name == b) with
    | none => rfl
    | some y =>
      dsimp only
      split <;> rfl

/-- When both agents exist, `send_direct_message` leaves the conversation
table unchanged if a conversation with the ordered-pair name already exists,
and appends exactly that conversation otherwise. -/
theorem sdm_conversations_eq (a b m : String) (db : ChatDB) (x y : Agent)
    (hx : db.agents.find? (fun t => t.name == a) = some x)
    (hy : db.agents.find? (fun t => t.name == b) = some y) :
    ((send_direct_message a b m db).2).conversations =
      if db.conversations.any (fun c => c.name == dm_name a b) then db.conversations
      else db.conversations ++ [⟨dm_name a b⟩] := by
  unfold send_direct_message
  rw [hx, hy]
  dsimp only
  split <;> rfl

/-- C7 counterexample: with agents Alice and Bob, a direct message from
Alice to Bob followed by one from Bob to Alice creates two distinct direct
conversations — the get-or-create key is the ordered pair, not the unordered
pair, so the second message does not reuse the first conversation. -/
theorem C7_counterexample :
    dmDB2.conversations = [⟨dm_name "Alice" "Bob"⟩, ⟨dm_name "Bob" "Alice"⟩]
    ∧ dm_name "Alice" "Bob" ≠ dm_name "Bob" "Alice"
    ∧ dmDB2.conversations.length = 2 := by
  refine ⟨rfl, by decide, rfl⟩

/-- C7 amended: direct-channel creation is an idempotent get-or-create keyed
by the *ordered* (sender, recipient) pair: after a first message from `a` to
`b` the conversation named for that ordered pair exists, and a second message
in the same direction creates no further conversation.  (Opposite directions
use different keys — see the counterexample.) -/
theorem C7_amended_ordered_get_or_create (db : ChatDB) (a b m1 m2 : String)
    (x y : Agent)
    (hx : db.agents.find? (fun t => t.name == a) = some x)
    (hy : db.agents.find? (fun t => t.name == b) = some y) :
    ((send_direct_message a b m1 db).2).conversations.any
        (fun c => c.name == dm_name a b) = true
    ∧ ((send_direct_message a b m2 (send_direct_message a b m1 db).2).2).conversations
        = ((send_direct_message a b m1 db).2).conversations := by
  have hconvs := sdm_conversations_eq a b m1 db x y hx hy
  have hany : ((send_direct_message a b m1 db).2).conversations.any
      (fun c => c.name == dm_name a b) = true := by
    rw [hconvs]
    split
    · assumption
    · simp
  refine ⟨hany, ?_⟩
  have hx1 : ((send_direct_message a b m1 db).2).agents.find?
      (fun t => t.name == a) = some x := by rw [sdm_agents_eq]; exact hx
  have hy1 : ((send_direct_message a b m1 db).2).agents.find?
      (fun t => t.name == b) = some y := by rw [sdm_agents_eq]; exact hy
  rw [sdm_conversations_eq a b m2 _ x y hx1 hy1, if_pos hany]

/-- C7 witness: the amended statement at the concrete two-agent store, for
two messages from Alice to Bob. -/
theorem C7_amended_ordered_get_or_create_witness :
    ((send_direct_message "Alice" "Bob" "hi" dmDB0).2).conversations.any
        (fun c => c.name == dm_name "Alice" "Bob") = true
    ∧ ((send_direct_message "Alice" "Bob" "again"
          (send_direct_message "Alice" "Bob" "hi" dmDB0).2).2).conversations
        = ((send_direct_message "Alice" "Bob" "hi" dmDB0).2).conversations :=
  C7_amended_ordered_get_or_create dmDB0 "Alice" "Bob" "hi" "again"
    ⟨1, "Alice", "HR"⟩ ⟨2, "Bob", "HR"⟩ (by decide) (by decide)

/-- C3 counterexample: `complete_task` moves a PENDING task directly to
COMPLETED — the claimed status-edge invariant (no direct PENDING→COMPLETED)
does not hold, and no `InvalidTransition` error exists. -/
theorem C3_counterexample :
    c3Task.status = .pending
    ∧ complete_task "Penny_The_Programmer" 1 c3DB =
        (.ok, ⟨[c2Agent], [{ c3Task with status := .completed }]⟩) := by
  exact ⟨rfl, rfl⟩

/-- C3 amended: the transition operations enforce no status edges at all.
`update_task_status`, for each of the four status names its callers can
pass, always returns an error and leaves the store unchanged — an
unrecognized name is rejected by the validation list, and a recognized name
fails the `TaskStatus(status.upper())` enum conversion because the enum's
values are lowercase; and `complete_task` sets any found task of the agent
to COMPLETED regardless of its previous status, so PENDING→COMPLETED and
re-completing a COMPLETED task are both accepted. -/
theorem C3_amended_no_edge_enforcement :
    (∀ (db : TaskDB) (n : String) (tid : Nat) (s : String),
      s ∈ (["pending", "in_progress", "completed", "blocked"] : List String) →
        (update_task_status n tid s db).2 = db
        ∧ (update_task_status n tid s db).1 ≠ .ok)
    ∧ (∀ (db : TaskDB) (n : String) (tid : Nat) (ag : Agent) (t : AgentTask),
        findAgent db n = some ag → findTask db tid ag.id = some t →
          complete_task n tid db =
            (.ok, { db with tasks := setTaskStatus db.tasks tid .completed })) := by
  constructor
  · intro db n tid s hs
    have hconv : taskStatusOfValue (upperStr s) = none := by
      fin_cases hs <;> decide
    unfold update_task_status
    split
    · exact ⟨rfl, by simp⟩
    · cases hA : findAgent db n with
      | none => exact ⟨rfl, by simp⟩
      | some ag =>
        dsimp only
        cases hT : findTask db tid ag.id with
        | none => exact ⟨rfl, by simp⟩
        | some t =>
          dsimp only
          rw [hconv]
          exact ⟨rfl, by simp⟩
  · intro db n tid ag t hA hT
    unfold complete_task
    rw [hA]
    dsimp only
    rw [hT]

/-- C3 witness: both halves of the amended statement at the concrete store —
`update_task_status` with the canonical name `"completed"` errors out and
changes nothing, while `complete_task` closes the PENDING task. -/
theorem C3_amended_no_edge_enforcement_witness :
    ((update_task_status "Penny_The_Programmer" 1 "completed" c3DB).2 = c3DB
      ∧ (update_task_status "Penny_The_Programmer" 1 "completed" c3DB).1 ≠ .ok)
    ∧ complete_task "Penny_The_Programmer" 1 c3DB =
        (.ok, { c3DB with tasks := setTaskStatus c3DB.tasks 1 .completed }) :=
  ⟨C3_amended_no_edge_enforcement.1 c3DB "Penny_The_Programmer" 1 "completed" (by decide),
   C3_amended_no_edge_enforcement.2 c3DB "Penny_The_Programmer" 1 c2Agent c3Task
     (by decide) (by decide)⟩

/-- `hasOpenChild` scans a multiset of tasks, so sorting its first argument
by priority does not change it. -/
theorem hasOpenChild_sortByPriority (l : List AgentTask) (t : AgentTask) :
    hasOpenChild (sortByPriority l) t = hasOpenChild l t := by
  unfold hasOpenChild sortByPriority
  rw [Bool.eq_iff_iff]
  simp only [List.any_eq_true]
  constructor
  · rintro ⟨c, hc, hp⟩
    exact ⟨c, (List.perm_insertionSort prioLE l).mem_iff.mp hc, hp⟩
  · rintro ⟨c, hc, hp⟩
    exact ⟨c, (List.perm_insertionSort prioLE l).mem_iff.mpr hc, hp⟩

/-- C1 counterexample: for the three-task chain `chainA ← chainB ← chainC`
(all PENDING, priorities 1, 2, 3), `get_agent_todo_list` returns
`[chainC, chainA, chainB]`: `chainA` appears at a position *before* its own
PENDING child `chainB`, because both carry open children and the parent
group is ordered by priority alone. -/
theorem C1_counterexample :
    get_agent_todo_list [chainA, chainB, chainC] 7 = [chainC, chainA, chainB]
    ∧ chainB.parent_id = some chainA.id
    ∧ chainB.status = .pending := by
  exact ⟨rfl, rfl, rfl⟩

/-- C1 amended: `get_agent_todo_list` is a two-group ordering — the tasks
without open children (children meaning PENDING/IN_PROGRESS tasks of the
same agent pointing at them) come first in ascending priority, then the
tasks with open children in ascending priority.  A task with an open child
therefore never precedes any task of the leaf group, but inside the parent
group a parent may precede its own open child (see the counterexample). -/
theorem C1_amended_leaf_first (tasks : List AgentTask) (agentId : Nat) :
    ∃ leaves parents,
      get_agent_todo_list tasks agentId = leaves ++ parents
      ∧ (∀ t ∈ leaves, hasOpenChild (openTasksOf tasks agentId) t = false)
      ∧ (∀ t ∈ parents, hasOpenChild (openTasksOf tasks agentId) t = true)
      ∧ leaves.Sorted prioLE ∧ parents.Sorted prioLE := by
  refine ⟨(sortByPriority (openTasksOf tasks agentId)).filter
      (fun t => !(hasOpenChild (sortByPriority (openTasksOf tasks agentId)) t)),
    (sortByPriority (openTasksOf tasks agentId)).filter
      (fun t => hasOpenChild (sortByPriority (openTasksOf tasks agentId)) t),
    rfl, ?_, ?_, ?_, ?_⟩
  · intro t ht
    have hp := List.of_mem_filter ht
    rw [← hasOpenChild_sortByPriority]
    simpa using hp
  · intro t ht
    have hp := List.of_mem_filter ht
    rw [← hasOpenChild_sortByPriority]
    exact hp
  · exact (List.sorted_insertionSort prioLE _).filter _
  · exact (List.sorted_insertionSort prioLE _).filter _

/-- C1 witness: the amended two-group statement at the concrete chain. -/
theorem C1_amended_leaf_first_witness :
    ∃ leaves parents,
      get_agent_todo_list [chainA, chainB, chainC] 7 = leaves ++ parents
      ∧ (∀ t ∈ leaves, hasOpenChild (openTasksOf [chainA, chainB, chainC] 7) t = false)
      ∧ (∀ t ∈ parents, hasOpenChild (openTasksOf [chainA, chainB, chainC] 7) t = true)
      ∧ leaves.Sorted prioLE ∧ parents.Sorted prioLE :=
  C1_amended_leaf_first [chainA, chainB, chainC] 7

/-- With no inbound messages and a firing report rule, `decide_next_action`
returns the report action and leaves the seen-set unchanged. -/
theorem decide_report_fires (role : String) (agentId : Nat)
    (tasks todo : List AgentTask) (responded : List String) (bc : Nat)
    (coin : Bool) (a : AgentAction)
    (h : reportRule role agentId tasks = some a) :
    decide_next_action role agentId [] tasks todo responded bc coin =
      ⟨a, responded, none⟩ := by
  unfold decide_next_action respondRule
  rw [h]

/-- C5 counterexample: with one COMPLETED reportable task (priority 1, a
root) and no other state, ten successive invocations of the decision engine
produce the report action *ten* times — the superior-report rule fires on
every cycle, not at most once, because no record of sent reports is kept. -/
theorem C5_counterexample :
    runCycles 10 "Marketer" 1 [] [c5Task] [] [] 0 false =
      List.replicate 10 (.send_direct_message "CeeCee_The_CEO" (.taskReport 1))
    ∧ 1 < (runCycles 10 "Marketer" 1 [] [c5Task] [] [] 0 false).count
        (.send_direct_message "CeeCee_The_CEO" (.taskReport 1)) := by
  exact ⟨rfl, by decide⟩

/-- C5 amended: with no intervening state change and no inbound messages,
the report-to-superior rule fires on *every* invocation for which a
reportable completed task exists and the role has a superior: `n` successive
cycles produce the same report action `n` times.  The engine keeps no
already-reported record, so duplicates are produced. -/
theorem C5_amended_report_every_cycle (n : Nat) (role : String) (agentId : Nat)
    (tasks todo : List AgentTask) (responded : List String) (bc : Nat)
    (coin : Bool) (a : AgentAction)
    (h : reportRule role agentId tasks = some a) :
    runCycles n role agentId [] tasks todo responded bc coin =
      List.replicate n a := by
  induction n with
  | zero => rfl
  | succ k ih =>
    unfold runCycles
    rw [decide_report_fires role agentId tasks todo responded bc coin a h]
    dsimp only
    rw [List.replicate_succ, ih]

/-- C5 witness: the amended statement at the concrete one-task environment
for three cycles. -/
theorem C5_amended_report_every_cycle_witness :
    runCycles 3 "Marketer" 1 [] [c5Task] [] [] 0 false =
      List.replicate 3 (.send_direct_message "CeeCee_The_CEO" (.taskReport 1)) :=
  C5_amended_report_every_cycle 3 "Marketer" 1 [c5Task] [] [] 0 false
    (.send_direct_message "CeeCee_The_CEO" (.taskReport 1)) rfl

/-- C8 counterexample: an agent with completed-but-unreported work — a
COMPLETED task that passes no clause of the reportable filter — never shares
an update: the todo list the pipeline produces for this state is empty (the
query keeps only PENDING/IN_PROGRESS tasks), the share branch tests that
todo list for COMPLETED entries, and so for *both* outcomes of the 70% coin
the engine returns the `get_my_todo_list` poll.  The probability of a shared
update is 0, not 70%. -/
theorem C8_counterexample :
    c8Task.status = .completed
    ∧ should_report_task_completion c8Task "Marketer" = false
    ∧ get_agent_todo_list [c8Task] 1 = []
    ∧ (decide_next_action "Marketer" 1 [] [c8Task] [] [] 0 true).action
        = .get_my_todo_list
    ∧ (decide_next_action "Marketer" 1 [] [c8Task] [] [] 0 false).action
        = .get_my_todo_list := by
  exact ⟨rfl, rfl, rfl, rfl, rfl⟩

/-- C8 amended: in the idle region, the probabilistic share fires only when
the todo list *itself* contains a COMPLETED task — lists produced by
`get_agent_todo_list` never do, since they hold only PENDING/IN_PROGRESS
tasks, so in the pipeline completed work never triggers the share.  For a
todo list of open tasks only: with the list empty, a CEO creates the
follow-up root task only when no open "Review team progress" task already
exists and polls otherwise, and every other role polls; with the list
non-empty the region always polls.  The share branch itself fires exactly on
a COMPLETED entry of the list and a favourable coin. -/
theorem C8_amended_idle_fallback :
    (∀ (role : String) (agentId : Nat) (tasks todo : List AgentTask) (coin : Bool),
      (∀ t ∈ todo, statusOpen t.status = true) →
        idleFallback role agentId tasks todo coin =
          if todo.isEmpty then
            (if role = "CEO" then
              (if !hasOpenReviewTask tasks agentId then
                .add_task "Review team progress and assign next tasks" 1
              else .get_my_todo_list)
            else .get_my_todo_list)
          else .get_my_todo_list)
    ∧ (∀ (role : String) (agentId : Nat) (tasks todo : List AgentTask)
        (c : AgentTask) (rest : List AgentTask),
        todo.filter (fun t => t.status == .completed) = c :: rest →
          idleFallback role agentId tasks todo true =
            .share_update (.completionUpdate c.title)) := by
  constructor
  · intro role agentId tasks todo coin hopen
    have hnc : (todo.any fun t => t.status == .completed) = false := by
      rw [List.any_eq_false]
      intro t ht
      have h1 := hopen t ht
      cases hstat : t.status <;> simp_all [statusOpen]
    unfold idleFallback
    rw [hnc]
    simp only [Bool.and_false, Bool.false_and, Bool.false_eq_true, if_false]
    cases todo with
    | nil => simp
    | cons t ts =>
      have hto : statusOpen t.status = true := hopen t (List.mem_cons_self t ts)
      have hany : ((t :: ts).any fun x => statusOpen x.status) = true :=
        List.any_eq_true.mpr ⟨t, List.mem_cons_self t ts, hto⟩
      rw [hany]
      simp
  · intro role agentId tasks todo c rest hfilter
    have hc : c ∈ todo.filter (fun t => t.status == .completed) := by
      rw [hfilter]; exact List.mem_cons_self c rest
    have hany : (todo.any fun t => t.status == .completed) = true :=
      List.any_eq_true.mpr ⟨c, (List.mem_filter.mp hc).1, (List.mem_filter.mp hc).2⟩
    have hne : todo.isEmpty = false := by
      cases todo with
      | nil => simp at hfilter
      | cons x xs => rfl
    unfold idleFallback
    rw [hne, hany, hfilter]
    simp

/-- C8 witness: both halves of the amended statement at concrete inputs —
the empty todo list of the counterexample state for a non-CEO (poll), and a
one-element COMPLETED todo list with a favourable coin (share). -/
theorem C8_amended_idle_fallback_witness :
    idleFallback "Marketer" 1 [c8Task] [] true =
      (if ([] : List AgentTask).isEmpty then
        (if "Marketer" = "CEO" then
          (if !hasOpenReviewTask [c8Task] 1 then
            .add_task "Review team progress and assign next tasks" 1
          else .get_my_todo_list)
        else .get_my_todo_list)
      else .get_my_todo_list)
    ∧ idleFallback "Marketer" 1 [c8Task] [c8Task] true =
        .share_update (.completionUpdate c8Task.title) :=
  ⟨C8_amended_idle_fallback.1 "Marketer" 1 [c8Task] [] true (by intro t ht; cases ht),
   C8_amended_idle_fallback.2 "Marketer" 1 [c8Task] [c8Task] c8Task [] rfl⟩

/-- New concrete children for the C2 witness: two COMPLETED, non-reportable
sub-tasks of `c2Parent`. -/
def w2Child1 : AgentTask := ⟨2, 1, "step one", "", .completed, 10, some 1⟩

/-- Second COMPLETED, non-reportable sub-task of `c2Parent`. -/
def w2Child2 : AgentTask := ⟨3, 1, "step two", "", .completed, 10, some 1⟩

/-- The keyword dispatch never proposes a `complete_task` action. -/
theorem workKeywordBranch_ne_complete (role : String) (c : AgentTask) (bc : Nat)
    (a : AgentAction) (h : workKeywordBranch role c bc = some a) (tid : Nat) :
    a ≠ .complete_task tid := by
  unfold workKeywordBranch at h
  dsimp only at h
  repeat' split at h
  all_goals first
    | exact Option.noConfusion h
    | (injection h with h2; subst h2; simp)

/-- The idle region never proposes a `complete_task` action. -/
theorem idleFallback_ne_complete (role : String) (aid : Nat)
    (tasks todo : List AgentTask) (coin : Bool) (tid : Nat) :
    idleFallback role aid tasks todo coin ≠ .complete_task tid := by
  unfold idleFallback
  repeat' split
  all_goals simp

/-- `complete_task` on a found agent/task pair: unconditionally COMPLETED. -/
theorem complete_task_found (db : TaskDB) (n : String) (tid : Nat) (ag : Agent)
    (t : AgentTask) (hA : findAgent db n = some ag)
    (hT : findTask db tid ag.id = some t) :
    complete_task n tid db =
      (.ok, { db with tasks := setTaskStatus db.tasks tid .completed }) := by
  unfold complete_task
  rw [hA]
  dsimp only
  rw [hT]

/-- With no messages and rules 1–3 silent, the decision for an IN_PROGRESS
head task is whatever the work branch produces, else the idle region. -/
theorem decide_work_in_progress (role : String) (aid : Nat) (tasks : List AgentTask)
    (current : AgentTask) (rest : List AgentTask) (responded : List String)
    (bc : Nat) (coin : Bool)
    (hst : current.status = .in_progress)
    (hrep : reportRule role aid tasks = none)
    (hblk : blockedRule role (current :: rest) = none)
    (hdel : ceoDelegateRule role (current :: rest) = none) :
    (decide_next_action role aid [] tasks (current :: rest) responded bc coin).action =
      (match workRule role tasks current bc with
       | some a => a
       | none => idleFallback role aid tasks (current :: rest) coin) := by
  have hany : ((current :: rest).any fun t => statusOpen t.status) = true :=
    List.any_eq_true.mpr ⟨current, List.mem_cons_self _ _, by rw [hst]; rfl⟩
  unfold decide_next_action
  dsimp only [respondRule]
  rw [hrep, hblk, hdel]
  rw [hany]
  cases hw : workRule role tasks current bc with
  | some a => rfl
  | none => rfl

/-- The work branch for an IN_PROGRESS head with children: propose the close
when every child is COMPLETED, otherwise dispatch on keywords. -/
theorem workRule_in_progress_children (role : String) (tasks : List AgentTask)
    (current : AgentTask) (bc : Nat)
    (hst : current.status = .in_progress)
    (hch : childrenOf tasks current.id ≠ []) :
    workRule role tasks current bc =
      if (childrenOf tasks current.id).all (fun c => c.status == .completed)
      then some (.complete_task current.id)
      else workKeywordBranch role current bc := by
  have hne : (childrenOf tasks current.id).isEmpty = false := by
    cases h : childrenOf tasks current.id with
    | nil => exact absurd h hch
    | cons x xs => rfl
  unfold workRule
  rw [hst]
  simp only [hne]
  rfl

/-- C2 counterexample: `complete_task` closes `c2Parent` while its child
`c2Child` is still PENDING — the "only if every child is COMPLETED" half of
the parent-completion invariant fails, and the close performs no
check-and-transition at all (a fortiori no atomic one). -/
theorem C2_counterexample :
    c2Child.parent_id = some c2Parent.id
    ∧ c2Child.status ≠ .completed
    ∧ complete_task "Penny_The_Programmer" 1 c2DB =
        (.ok, ⟨[c2Agent], [{ c2Parent with status := .completed }, c2Child]⟩) := by
  exact ⟨rfl, by simp [c2Child], rfl⟩

/-- C2 amended: the child check lives only in the decision engine, the
transition only in the tool, and the two are separate (read-then-act, not an
atomic check-and-transition).  (i) For an IN_PROGRESS head task with
children, and no earlier rule firing, the engine proposes the
`complete_task` close *iff* every child is COMPLETED.  (ii) `complete_task`
itself transitions any found task to COMPLETED with no condition on its
children or previous status, so the parent-completion "only if" direction is
not enforced where the transition happens. -/
theorem C2_amended_close_guard_separate_from_transition :
    (∀ (role : String) (agentId : Nat) (tasks : List AgentTask)
        (current : AgentTask) (rest : List AgentTask) (responded : List String)
        (bc : Nat) (coin : Bool),
      current.status = .in_progress →
      childrenOf tasks current.id ≠ [] →
      reportRule role agentId tasks = none →
      blockedRule role (current :: rest) = none →
      ceoDelegateRule role (current :: rest) = none →
        ((decide_next_action role agentId [] tasks (current :: rest)
              responded bc coin).action = .complete_task current.id
          ↔ ∀ c ∈ childrenOf tasks current.id, c.status = .completed))
    ∧ (∀ (db : TaskDB) (n : String) (tid : Nat) (ag : Agent) (t : AgentTask),
        findAgent db n = some ag → findTask db tid ag.id = some t →
          complete_task n tid db =
            (.ok, { db with tasks := setTaskStatus db.tasks tid .completed })) := by
  constructor
  · intro role agentId tasks current rest responded bc coin hst hch hrep hblk hdel
    rw [decide_work_in_progress role agentId tasks current rest responded bc coin
      hst hrep hblk hdel]
    rw [workRule_in_progress_children role tasks current bc hst hch]
    by_cases hall : ((childrenOf tasks current.id).all
        fun c => c.status == .completed) = true
    · rw [if_pos hall]
      constructor
      · intro _ c hc
        have hb := List.all_eq_true.mp hall c hc
        exact eq_of_beq hb
      · intro _
        rfl
    · rw [if_neg hall]
      constructor
      · intro hk
        exfalso
        cases hw : workKeywordBranch role current bc with
        | some a =>
          rw [hw] at hk
          exact workKeywordBranch_ne_complete role current bc a hw current.id hk
        | none =>
          rw [hw] at hk
          exact idleFallback_ne_complete role agentId tasks (current :: rest)
            coin current.id hk
      · intro hcomp
        exfalso
        exact hall (List.all_eq_true.mpr fun c hc => beq_iff_eq.mpr (hcomp c hc))
  · exact fun db n tid ag t hA hT => complete_task_found db n tid ag t hA hT

/-- C2 witness: both halves at concrete inputs — the engine proposes the
close of `c2Parent` when both children are COMPLETED, and `complete_task`
closes `c2Parent` in the store where its child is still PENDING. -/
theorem C2_amended_close_guard_witness :
    (decide_next_action "Programmer" 1 [] [c2Parent, w2Child1, w2Child2]
        [c2Parent] [] 0 false).action = .complete_task 1
    ∧ complete_task "Penny_The_Programmer" 1 c2DB =
        (.ok, { c2DB with tasks := setTaskStatus c2DB.tasks 1 .completed }) :=
  ⟨(C2_amended_close_guard_separate_from_transition.1 "Programmer" 1
      [c2Parent, w2Child1, w2Child2] c2Parent [] [] 0 false rfl (by decide)
      rfl rfl rfl).mpr (by decide),
   C2_amended_close_guard_separate_from_transition.2 c2DB "Penny_The_Programmer" 1
     c2Agent c2Parent (by decide) (by decide)⟩

/-- The helper lookup for the title "Implement login API": the "api" keyword
selects the technical branch, no security keyword matches, so non-Programmers
are routed to Penny_The_Programmer and Programmers escalate to the CEO. -/
theorem helper_login_api (role : String) :
    get_helper_for_task role "Implement login API" =
      if role = "Programmer" then "CeeCee_The_CEO" else "Penny_The_Programmer" := by
  unfold get_helper_for_task
  rw [if_pos (by decide)]
  by_cases hrole : role = "Programmer"
  · rw [if_neg (by simp [hrole]), if_pos hrole]
  · rw [if_pos hrole, if_neg (by decide), if_neg hrole]

/-- C6 counterexample: the claim fails on both ends.  Through the pipeline,
a BLOCKED task never reaches the decision engine at all —
`get_agent_todo_list` keeps only PENDING/IN_PROGRESS tasks, so the todo list
for an agent whose only task is the BLOCKED "Implement login API" is empty.
And even with the BLOCKED task handed to the engine directly, an agent whose
role *is* Programmer gets a direct message to CeeCee_The_CEO (the CEO, not a
Programmer): the claimed "technical-role (Programmer) helper" routing does
not hold for every agent. -/
theorem C6_counterexample :
    get_agent_todo_list [c6Blocked] 1 = []
    ∧ (decide_next_action "Programmer" 1 [] [c6Blocked] [c6Blocked] [] 0 false).action
        = .send_direct_message "CeeCee_The_CEO" (.helpRequest "Implement login API")
    ∧ get_helper_for_task "Programmer" "Implement login API" = "CeeCee_The_CEO"
    ∧ "CeeCee_The_CEO" ≠ "Penny_The_Programmer"
    ∧ "CeeCee_The_CEO" ≠ "Paige_The_Programmer" := by
  exact ⟨rfl, rfl, rfl, by decide, by decide⟩

/-- C6 amended: *when the BLOCKED task titled "Implement login API" is
present in the todo list handed to the engine* (the todo-list query itself
excludes BLOCKED tasks, so this requires a path other than
`get_agent_todo_list`), and no earlier rule fires (no inbound message, no
reportable completed task), the engine sends the help request as a direct
message — to Penny_The_Programmer for agents whose role is not Programmer,
and to CeeCee_The_CEO for Programmers; never to the general channel. -/
theorem C6_amended_blocked_help_routing (role : String) (agentId : Nat)
    (tasks : List AgentTask) (responded : List String) (bc : Nat) (coin : Bool)
    (tB : AgentTask) (hst : tB.status = .blocked)
    (htitle : tB.title = "Implement login API")
    (hrep : reportRule role agentId tasks = none) :
    (decide_next_action role agentId [] tasks [tB] responded bc coin).action
      = .send_direct_message
          (if role = "Programmer" then "CeeCee_The_CEO" else "Penny_The_Programmer")
          (.helpRequest "Implement login API") := by
  have hblocked : blockedRule role [tB] = some (.send_direct_message
      (if role = "Programmer" then "CeeCee_The_CEO" else "Penny_The_Programmer")
      (.helpRequest "Implement login API")) := by
    unfold blockedRule
    rw [if_neg (by simp)]
    have hfil : ([tB].filter fun t => t.status == .blocked) = [tB] := by
      simp [List.filter, hst]
    rw [hfil]
    have hsort : sortByPriority [tB] = [tB] := rfl
    rw [hsort]
    dsimp only
    rw [htitle, helper_login_api role]
    by_cases hrole : role = "Programmer"
    · rw [if_pos hrole, if_neg (by decide)]
    · rw [if_neg hrole, if_neg (by decide)]
  unfold decide_next_action
  dsimp only [respondRule]
  rw [hrep, hblocked]

/-- C6 witness: the amended routing for a Marketer whose todo list holds the
BLOCKED "Implement login API" task — the help request goes to
Penny_The_Programmer by direct message. -/
theorem C6_amended_blocked_help_routing_witness :
    (decide_next_action "Marketer" 1 [] [c6Blocked] [c6Blocked] [] 0 false).action
      = .send_direct_message
          (if "Marketer" = "Programmer" then "CeeCee_The_CEO" else "Penny_The_Programmer")
          (.helpRequest "Implement login API") :=
  C6_amended_blocked_help_routing "Marketer" 1 [c6Blocked] [] 0 false c6Blocked
    rfl rfl rfl

/-- The report rule never produces a brainstorming reply. -/
theorem reportRule_not_reply (role : String) (aid : Nat) (tasks : List AgentTask)
    (a : AgentAction) (h : reportRule role aid tasks = some a) :
    isBrainstormReply a = false := by
  unfold reportRule at h
  dsimp only at h
  repeat' split at h
  all_goals first
    | exact Option.noConfusion h
    | (injection h with h2; subst h2; rfl)

/-- The blocked-task rule never produces a brainstorming reply. -/
theorem blockedRule_not_reply (role : String) (todo : List AgentTask)
    (a : AgentAction) (h : blockedRule role todo = some a) :
    isBrainstormReply a = false := by
  unfold blockedRule at h
  dsimp only at h
  repeat' split at h
  all_goals first
    | exact Option.noConfusion h
    | (injection h with h2; subst h2; rfl)

/-- The CEO delegation rule never produces a brainstorming reply. -/
theorem ceoDelegateRule_not_reply (role : String) (todo : List AgentTask)
    (a : AgentAction) (h : ceoDelegateRule role todo = some a) :
    isBrainstormReply a = false := by
  unfold ceoDelegateRule at h
  repeat' split at h
  all_goals first
    | exact Option.noConfusion h
    | (injection h with h2; subst h2; rfl)

/-- The keyword dispatch never produces a brainstorming reply. -/
theorem workKeywordBranch_not_reply (role : String) (c : AgentTask) (bc : Nat)
    (a : AgentAction) (h : workKeywordBranch role c bc = some a) :
    isBrainstormReply a = false := by
  unfold workKeywordBranch at h
  dsimp only at h
  repeat' split at h
  all_goals first
    | exact Option.noConfusion h
    | (injection h with h2; subst h2; rfl)

/-- The default head-task arm never produces a brainstorming reply. -/
theorem defaultHeadAction_not_reply (role : String) (c : AgentTask) (bc : Nat) :
    isBrainstormReply (defaultHeadAction role c bc) = false := by
  unfold defaultHeadAction
  repeat' split
  all_goals rfl

/-- The work branch never produces a brainstorming reply. -/
theorem workRule_not_reply (role : String) (tasks : List AgentTask)
    (c : AgentTask) (bc : Nat) (a : AgentAction)
    (h : workRule role tasks c bc = some a) :
    isBrainstormReply a = false := by
  unfold workRule at h
  dsimp only at h
  repeat' split at h
  all_goals first
    | exact Option.noConfusion h
    | exact workKeywordBranch_not_reply role c bc a h
    | (injection h with h2; subst h2;
        first
          | rfl
          | exact defaultHeadAction_not_reply role c bc)

/-- The idle region never produces a brainstorming reply. -/
theorem idleFallback_not_reply (role : String) (aid : Nat)
    (tasks todo : List AgentTask) (coin : Bool) :
    isBrainstormReply (idleFallback role aid tasks todo coin) = false := by
  unfold idleFallback
  repeat' split
  all_goals rfl

/-- When the respond rule stays silent, no rule of the rest of the cascade
can produce a brainstorming reply. -/
theorem decide_not_reply (role : String) (aid : Nat) (msgs : List ChatMessage)
    (tasks todo : List AgentTask) (responded : List String) (bc : Nat)
    (coin : Bool)
    (h : (respondRule role msgs responded).1 = none) :
    isBrainstormReply
      (decide_next_action role aid msgs tasks todo responded bc coin).action = false := by
  rcases hr : respondRule role msgs responded with ⟨o, r'⟩
  rw [hr] at h
  dsimp only at h
  subst h
  unfold decide_next_action
  rw [hr]
  dsimp only
  cases hrep : reportRule role aid tasks with
  | some a =>
    exact reportRule_not_reply role aid tasks a hrep
  | none =>
    cases hblk : blockedRule role todo with
    | some a =>
      exact blockedRule_not_reply role todo a hblk
    | none =>
      cases hdel : ceoDelegateRule role todo with
      | some a =>
        exact ceoDelegateRule_not_reply role todo a hdel
      | none =>
        cases todo with
        | nil => exact idleFallback_not_reply role aid tasks [] coin
        | cons t ts =>
          dsimp only
          split
          · cases hw : workRule role tasks t bc with
            | some a =>
              exact workRule_not_reply role tasks t bc a hw
            | none =>
              exact idleFallback_not_reply role aid tasks (t :: ts) coin
          · exact idleFallback_not_reply role aid tasks (t :: ts) coin

/-- If the respond rule answers a single offered message, the updated
seen-set starts with that message's identity. -/
theorem respondRule_single_some (role : String) (m : ChatMessage)
    (responded : List String) (a : AgentAction) (r' : List String)
    (h : respondRule role [m] responded = (some a, r')) :
    r' = message_id m :: responded := by
  unfold respondRule at h
  split at h
  · exact absurd (congrArg Prod.fst h) (by simp [respondRule])
  · split at h
    · split at h
      · simp only [Prod.mk.injEq] at h
        exact h.2.symm
      · exact absurd (congrArg Prod.fst h) (by simp [respondRule])
    · exact absurd (congrArg Prod.fst h) (by simp [respondRule])

/-- A message whose identity is already in the seen-set is skipped. -/
theorem respondRule_single_seen (role : String) (m : ChatMessage)
    (responded : List String)
    (hmem : responded.contains (message_id m) = true) :
    respondRule role [m] responded = (none, responded) := by
  unfold respondRule
  rw [if_pos hmem]
  rfl

/-- C4: the dedup property.  Offering the same inbound message — identical
sender, timestamp and content — to one running decision engine on two
successive invocations (the per-runtime seen-set threaded between them)
produces a brainstorming reply at most once: one of the two invocations
yields a non-reply action. -/
theorem C4_dedup_at_most_one_reply (role : String) (agentId : Nat)
    (tasks todo : List AgentTask) (responded : List String) (bc : Nat)
    (coin : Bool) (m : ChatMessage) :
    isBrainstormReply
        (decide_next_action role agentId [m] tasks todo responded bc coin).action = false
    ∨ isBrainstormReply
        (decide_next_action role agentId [m] tasks todo
          (decide_next_action role agentId [m] tasks todo responded bc coin).responded
          bc coin).action = false := by
  rcases hr : respondRule role [m] responded with ⟨o, r'⟩
  cases o with
  | none =>
    exact Or.inl (decide_not_reply role agentId [m] tasks todo responded bc coin
      (by rw [hr]))
  | some a =>
    right
    have hresp : (decide_next_action role agentId [m] tasks todo responded
        bc coin).responded = r' := by
      unfold decide_next_action
      rw [hr]
    have hr2 : r' = message_id m :: responded :=
      respondRule_single_some role m responded a r' hr
    rw [hresp]
    refine decide_not_reply role agentId [m] tasks todo r' bc coin ?_
    rw [hr2, respondRule_single_seen role m (message_id m :: responded) (by simp)]

end VibeCorp
